import Mathlib

/-!
Verification of the daisycloud-core host/discovery API against its
natural-language specification.  The definitions below are a shallow
embedding of `daisy/api/v1/hosts.py` (class `Controller`) and
`daisy/api/backends/kolla/config.py`.  Python dictionaries become
structures, absent keys become `Option`, machine integers are `Nat`/`Int`
(Python 2 integers are unbounded, and every `/` in the embedded code is
applied to non-negative operands, where Python floor division agrees with
`Nat` division), and every `raise HTTP...` becomes an `Except` error whose
constructor remembers which rule fired; `errKind` maps each error to the
HTTP class (`Forbidden`, `BadRequest`, `NotFound`) raised by the source.
-/

deriving instance DecidableEq for Except

namespace Daisy

/-- Python truthiness for an optional string field of a dict:
`d.get(k, None)` is truthy exactly when the key is present and the string
is non-empty. -/
def strTruthy : Option String → Bool
  | some s => !s.isEmpty
  | none => false

/-- Python `str.isdigit()`: non-empty and all characters are digits. -/
def pyIsDigit (s : String) : Bool :=
  !s.isEmpty && s.toList.all Char.isDigit

/-- Value of `int(s)` for a string known to satisfy `isdigit()`. -/
def pyStrToNat (s : String) : Nat :=
  s.toList.foldl (fun a c => 10 * a + (c.toNat - 48)) 0

/-- Python `str.strip()`: drop leading and trailing whitespace. -/
def pyStrip (s : String) : String :=
  String.mk
    (((s.toList.dropWhile Char.isWhitespace).reverse.dropWhile
      Char.isWhitespace).reverse)

/-- Python `int(s)` on a possibly signed decimal string: `none` models the
`ValueError` path (an uncaught crash in the source). -/
def pyInt (s : String) : Option Int :=
  let t := pyStrip s
  if pyIsDigit t then some (pyStrToNat t)
  else
    match t.toList with
    | '-' :: rest =>
      if !rest.isEmpty && rest.all Char.isDigit then
        some (-(String.mk rest |> pyStrToNat : Int))
      else none
    | _ => none

/-- Python `str.split(sep)` for a one-character separator, over a char
list: empty fields are kept, as in Python. -/
def pyCharsSplit (sep : Char) : List Char → List (List Char)
  | [] => [[]]
  | c :: cs =>
    match pyCharsSplit sep cs with
    | [] => [[]]
    | x :: xs => if c = sep then [] :: x :: xs else (c :: x) :: xs

/-- Python `str.split(sep)` for a one-character separator. -/
def pySplit (s : String) (sep : Char) : List String :=
  (pyCharsSplit sep s.toList).map String.mk

/-- Whether `sub` occurs as a contiguous run at the head of `l`. -/
def charsStartWith : List Char → List Char → Bool
  | [], _ => true
  | _ :: _, [] => false
  | c :: cs, d :: ds => c = d && charsStartWith cs ds

/-- Python `s.find(sub) != -1`: `sub` occurs somewhere inside `s`. -/
def pyContains (s sub : String) : Bool :=
  let rec go : List Char → Bool
    | [] => sub.toList.isEmpty
    | c :: cs => charsStartWith sub.toList (c :: cs) || go cs
  go s.toList

/-- `Controller._get_swap_lv_size_m` (hosts.py 867-876): step function from
total memory (MB) to the default swap LV size (MB). -/
def get_swap_lv_size_m (memory_size_m : Nat) : Nat :=
  if memory_size_m ≤ 4096 then 4096
  else if memory_size_m ≤ 16384 then 8192
  else if memory_size_m ≤ 65536 then 32768
  else 65536

/-- Error raised by `Controller.check_bond_slaves_validity`. -/
inductive BondErr where
  | slavesNotTwo
  | slaveNotEther
  deriving DecidableEq, Repr

/-- `Controller.check_bond_slaves_validity` (hosts.py 167-194): for each
bond's slave list, `len(set(bond_slaves)) != 2` is Forbidden, and a slave
set not contained in the ether nic names is Forbidden.  (The docstring also
promises that slave sets of different bonds "can not be overlap", but the
body never compares two bonds.) -/
def check_bond_slaves_validity :
    List (List String) → List String → Except BondErr Unit
  | [], _ => .ok ()
  | bond_slaves :: rest, ether_nic_names_list =>
    if (bond_slaves.eraseDups).length ≠ 2 then .error .slavesNotTwo
    else if !(bond_slaves.all (fun s => ether_nic_names_list.contains s)) then
      .error .slaveNotEther
    else check_bond_slaves_validity rest ether_nic_names_list

end Daisy

namespace Daisy

/-- A value stored under a key of kolla's `passwords.yml` mapping:
`vnone` is Python `None`, `vstr` a string, `vkeys` a dict holding the
optional `private_key`/`public_key` entries of an SSH key pair. -/
inductive PVal where
  | vnone
  | vstr (s : String)
  | vkeys (private_key : Option String) (public_key : Option String)
  deriving DecidableEq, Repr

/-- The random draws available to one iteration of the fill loop of
`update_password_yml`: the generated RSA pair, `str(uuid.uuid4())`, and the
40-character alphanumeric `random.SystemRandom` draw. -/
structure RandDraw where
  rsaPrivate : String
  rsaPublic : String
  uuid4 : String
  rand40 : String
  deriving DecidableEq, Repr

def uuid_keys : List String := ["ceph_cluster_fsid", "rbd_secret_uuid"]

def ssh_keys : List String := ["nova_ssh_key"]

def blank_keys : List String := ["docker_registry_password"]

def keystone_admin_password : List String := ["keystone_admin_password"]

/-- The `v is None or v.get('public_key') is None and v.get('private_key')
is None` test guarding SSH-key regeneration (kolla/config.py 186-188). -/
def sshValueMissing : PVal → Bool
  | .vnone => true
  | .vkeys pk pub => pub = none && pk = none
  | .vstr _ => false

/-- Body of the `for k, v in passwords.items()` loop of
`update_password_yml` (kolla/config.py 184-207) for one key.  Note the
source's two successive `if` statements: a key in `uuid_keys` is first
assigned `str(uuid.uuid4())` and then, because the key is not in
`keystone_admin_password`, the `else` arm of the *second* `if` overwrites
it with the 40-character random string.  `_v1` keeps that dead first
assignment visible. -/
def fillPassword (r : RandDraw) (k : String) (v : PVal) : PVal :=
  if k ∈ ssh_keys ∧ sshValueMissing v then
    .vkeys (some r.rsaPrivate) (some r.rsaPublic)
  else if v = .vnone then
    if k ∈ blank_keys then v
    else
      let _v1 : PVal := if k ∈ uuid_keys then .vstr r.uuid4 else v
      if k ∈ keystone_admin_password then .vstr "keystone"
      else .vstr r.rand40
  else v

/-- `update_password_yml` over the whole mapping, with one independent
random draw per key. -/
def update_password_yml (draws : String → RandDraw)
    (passwords : List (String × PVal)) : List (String × PVal) :=
  passwords.map (fun kv => (kv.1, fillPassword (draws kv.1) kv.1 kv.2))

end Daisy

namespace Daisy

/-- One entry of a submitted interface list, with the keys read by the
interface checks of hosts.py; every key is optional, as in the JSON dict. -/
structure Iface where
  name : Option String
  mac : Option String
  pci : Option String
  type : Option String
  is_deployment : Option String
  vswitch_type : Option String
  deriving DecidableEq, Repr

/-- Predicate of the `same_mac_list` comprehension of
`Controller._verify_interface_in_same_host` (hosts.py 771-783): both
interfaces need truthy `name`, `mac` and `type`, distinct names, equal
macs, and neither of type `bond`. -/
def sameMacPair (i1 i2 : Iface) : Bool :=
  strTruthy i1.name && strTruthy i1.mac &&
  strTruthy i2.name && strTruthy i2.mac &&
  strTruthy i1.type && strTruthy i2.type &&
  i1.name ≠ i2.name && i1.mac = i2.mac &&
  i1.type ≠ some "bond" && i2.type ≠ some "bond"

/-- The `same_mac_list` comprehension itself (warning only). -/
def same_mac_list (interfaces : List Iface) : List String :=
  interfaces.flatMap (fun i1 =>
    (interfaces.filter (fun i2 => sameMacPair i1 i2)).map
      (fun _ => i1.name.getD ""))

/-- Predicate of the `same_pci_list` comprehension (hosts.py 796-808):
both interfaces need truthy `name`, `pci` and `type`, distinct names,
equal pcis, and both of type `ether`. -/
def samePciPair (i1 i2 : Iface) : Bool :=
  strTruthy i1.name && strTruthy i1.pci &&
  strTruthy i2.name && strTruthy i2.pci &&
  strTruthy i1.type && strTruthy i2.type &&
  i1.name ≠ i2.name && i1.pci = i2.pci &&
  i1.type = some "ether" && i2.type = some "ether"

/-- The `same_pci_list` comprehension. -/
def same_pci_list (interfaces : List Iface) : List String :=
  interfaces.flatMap (fun i1 =>
    (interfaces.filter (fun i2 => samePciPair i1 i2)).map
      (fun _ => i1.name.getD ""))

/-- Errors of the add-host interface checks embedded below. -/
inductive AddErr where
  | samePciForbidden
  | dmiUuidMismatch
  | activeHostExists
  deriving DecidableEq, Repr

/-- `Controller._verify_interface_in_same_host` (hosts.py 763-816):
duplicate macs across non-bond interfaces only populate a logged warning
list (returned here), while duplicate pcis across ether interfaces raise
Forbidden. -/
def verify_interface_in_same_host (interfaces : List Iface) :
    Except AddErr (List String) :=
  let warn := same_mac_list interfaces
  if same_pci_list interfaces ≠ [] then .error .samePciForbidden
  else .ok warn

/-- `interface.get('is_deployment', None)` equal to `"True"`, `"true"` or
the integer `1` (hosts.py 730-737); the integer is modeled as `"1"`. -/
def isDeploymentMarked (i : Iface) : Bool :=
  i.is_deployment = some "True" || i.is_deployment = some "true" ||
  i.is_deployment = some "1"

/-- `Controller._count_host_pxe_info` (hosts.py 728-738). -/
def count_host_pxe_info (interfaces : List Iface) : List Iface :=
  interfaces.filter isDeploymentMarked

/-- A registered host as seen by `_verify_interface_among_hosts`: its id,
`os_status`, `dmi_uuid` and the interfaces returned by `get_host`. -/
structure ExistHost where
  id : String
  os_status : Option String
  dmi_uuid : Option String
  interfaces : List Iface
  deriving DecidableEq, Repr

/-- Inner loop of `_verify_interface_among_hosts` (hosts.py 850-864) over
one registered host: skip interfaces whose mac differs from the input pxe
interface's mac (`None == None` matches, as in Python) or whose type is
`bond`; at the first match, a truthy stored `dmi_uuid` different from the
input's raises Forbidden, otherwise the host id and `os_status` are
returned. -/
def matchHostByPxeMac (pxe : Iface) (input_dmi : Option String)
    (node : ExistHost) : Except AddErr (Option (String × Option String)) :=
  match node.interfaces.find? (fun i =>
      i.mac = pxe.mac && i.type ≠ some "bond") with
  | none => .ok none
  | some _ =>
    if strTruthy node.dmi_uuid ∧ node.dmi_uuid ≠ input_dmi then
      .error .dmiUuidMismatch
    else .ok (some (node.id, node.os_status))

/-- `Controller._verify_interface_among_hosts` (hosts.py 818-865) for an
input host whose interface list passes `_verify_interface_in_same_host`:
scan registered hosts in order (hosts without interfaces are skipped by
the `find?` returning `none`) and return the first pxe-mac match. -/
def verify_interface_among_hosts (interfaces : List Iface)
    (input_dmi : Option String) (existing : List ExistHost) :
    Except AddErr (Option (String × Option String)) := do
  let _warn ← verify_interface_in_same_host interfaces
  match count_host_pxe_info interfaces with
  | [] => .ok none
  | pxe :: _ =>
    let rec scan : List ExistHost →
        Except AddErr (Option (String × Option String))
      | [] => .ok none
      | node :: rest => do
        match ← matchHostByPxeMac pxe input_dmi node with
        | some r => .ok (some r)
        | none => scan rest
    scan existing

/-- Outcome of the exist-host branch of `_check_add_host_interfaces`. -/
inductive AddOutcome where
  | updatedExisting (id : String)
  | freshAdd
  deriving DecidableEq, Repr

/-- Lines 313-326 of `Controller._check_add_host_interfaces`: when the
scan finds an already-registered host (truthy id), an `os_status` of
`active` raises BadRequest, otherwise the call degenerates into
`update_host` of the existing id; with no match, the fresh-add validation
path continues. -/
def check_add_host_exist_branch (interfaces : List Iface)
    (input_dmi : Option String) (existing : List ExistHost) :
    Except AddErr AddOutcome := do
  match ← verify_interface_among_hosts interfaces input_dmi existing with
  | some (exist_id, os_status) =>
    if exist_id ≠ "" then
      if os_status = some "active" then .error .activeHostExists
      else .ok (.updatedExisting exist_id)
    else .ok .freshAdd
  | none => .ok .freshAdd

end Daisy

namespace Daisy

/-- `Controller.validate_ip_format` (hosts.py 196-212): three dots and all
dot-separated fields (after `rstrip`) digit strings in `[0, 256)`. -/
def validate_ip_format_ok (ip_str : String) : Bool :=
  let fields := (ip_str.toList.reverse.dropWhile Char.isWhitespace).reverse
  let parts := (pyCharsSplit '.' fields).map String.mk
  (ip_str.toList.countP (fun c => c = '.') = 3) &&
  parts.all (fun num => pyIsDigit num && pyStrToNat num < 256)

/-- One DiscoverHost record of the registry. -/
structure DRec where
  id : String
  ip : String
  user : String
  passwd : String
  status : String
  message : String
  host_id : String
  deriving DecidableEq, Repr

/-- Errors of `add_discover_host`. -/
inductive DiscErr where
  | ipMissing
  | alreadyDiscovered
  | badIpFormat
  | passwdMissing
  deriving DecidableEq, Repr

/-- The submitted metadata of `add_discover_host`. -/
structure DiscMeta where
  ip : Option String
  user : Option String
  passwd : Option String
  status : Option String
  deriving DecidableEq, Repr

/-- `Controller.add_discover_host` (hosts.py 2032-2092) against a list of
stored DiscoverHost records, returning the resulting record (the updated
or freshly added one).  When the submitted ip already belongs to a stored
record, a record whose status is not `DISCOVERY_SUCCESSFUL` is reset to
status `init` (keeping the submitted or stored passwd/user), while a
`DISCOVERY_SUCCESSFUL` record makes the call fail with Forbidden.
Registry persistence is modeled as always succeeding. -/
def add_discover_host (host_meta : DiscMeta) (store : List DRec) :
    Except DiscErr DRec :=
  if !strTruthy host_meta.ip then .error .ipMissing
  else
    let ipv := host_meta.ip.getD ""
    let discover_hosts_ip := (store.filter (fun h => h.ip ≠ "")).map (·.ip)
    if ipv ∈ discover_hosts_ip then
      match store.find? (fun h => h.ip = ipv) with
      | some host =>
        if host.status ≠ "DISCOVERY_SUCCESSFUL" then
          .ok { host with
                ip := ipv
                passwd := host_meta.passwd.getD host.passwd
                user := host_meta.user.getD host.user
                status := "init"
                message := "None" }
        else .error .alreadyDiscovered
      | none => .error .alreadyDiscovered
    else if !validate_ip_format_ok ipv then .error .badIpFormat
    else
      let userv := if strTruthy host_meta.user then host_meta.user.getD ""
                   else "root"
      if !strTruthy host_meta.passwd then .error .passwdMissing
      else
        let statusv := if strTruthy host_meta.status then
                         host_meta.status.getD ""
                       else "init"
        .ok { id := "", ip := ipv, user := userv,
              passwd := host_meta.passwd.getD "", status := statusv,
              message := "", host_id := "" }

/-- One row of `registry.get_all_host_interfaces`: the interface's ip and
the id of the host owning it. -/
structure HIfaceRow where
  host_id : String
  ip : String
  deriving DecidableEq, Repr

/-- First phase of `Controller.discover_host_bin` (hosts.py 1961-1967):
every record whose status is not `DISCOVERY_SUCCESSFUL` is written back
with status and message `DISCOVERING` and host id `None`. -/
def markDiscovering (r : DRec) : DRec :=
  if r.status ≠ "DISCOVERY_SUCCESSFUL" then
    { r with status := "DISCOVERING", message := "DISCOVERING",
             host_id := "None" }
  else r

/-- Second phase of `Controller.discover_host_bin` (hosts.py 1969-1981)
for one record, applied on top of the first phase: a record whose ip
equals the ip of some registered host interface is written back as
`DISCOVERY_SUCCESSFUL` with the first matching interface's host id, and
no probe thread is started for it. -/
def shortCircuitKnownIp (host_interfaces : List HIfaceRow) (r : DRec) :
    DRec :=
  match host_interfaces.find? (fun h => r.ip = h.ip) with
  | some h =>
    { markDiscovering r with
      status := "DISCOVERY_SUCCESSFUL"
      message := "discover host for " ++ r.ip ++ " successfully!"
      host_id := h.host_id }
  | none => markDiscovering r

/-- `Controller.discover_host_bin` (hosts.py 1948-1996) restricted to its
registry effects: the resulting store (both phases applied record by
record; each registry write is keyed by the record's unique id, so the
sequential writes compose per record) and the sublist of records for which
a probe thread is started (ip not registered and snapshot status not
`DISCOVERY_SUCCESSFUL`; the threads' own effects are not modeled). -/
def discover_host_bin (records : List DRec)
    (host_interfaces : List HIfaceRow) : List DRec × List DRec :=
  (records.map (shortCircuitKnownIp host_interfaces),
   records.filter (fun r =>
     (host_interfaces.find? (fun h => r.ip = h.ip)).isNone &&
     r.status ≠ "DISCOVERY_SUCCESSFUL"))

end Daisy

namespace Daisy

/-- One entry of the stored `disks` mapping of a host: its key in the
mapping and the `disk`, `name` and `size` fields; `size` holds the leading
numeric token of the stored "`<number> <unit>`" string (bytes). -/
structure Disk where
  key : String
  disk : String
  name : String
  size : Nat
  deriving DecidableEq, Repr

/-- A role row of `registry.get_roles_detail` with the keys read by the
swap-size check; the three sizes hold 0 when the column is NULL (falsy). -/
structure KRole where
  name : String
  type : String
  glance_lv_size : Nat
  db_lv_size : Nat
  nova_lv_size : Nat
  deriving DecidableEq, Repr

/-- The stored host (`orig_host_meta`) as read by `update_host`.  String
fields use `""` for an absent/None value where the source only tests
truthiness; `memoryTotal` is the leading numeric token of
`memory['total']` (none when memory info is absent), `cpuTotal` the value
of `cpu['total']`. -/
structure OrigHost where
  deleted : Bool
  os_status : Option String
  root_disk : String
  root_lv_size : Int
  swap_lv_size : Int
  root_pwd : String
  isolcpus : Option String
  hugepages : Int
  hugepagesize : String
  os_version_file : String
  disks : List Disk
  memoryTotal : Option Nat
  cpuTotal : Option Nat
  role : List String
  interfaces : List Iface
  deriving DecidableEq, Repr

/-- The update patch (`host_meta`) handled by the embedded fragment of
`update_host`: patches that do not carry the `interfaces`, `cluster`,
`role` or `config_set_id` keys, so that the corresponding blocks of the
source are skipped.  Numeric API fields arrive as strings; `hugepages`
arrives already as an integer. -/
structure UPatch where
  os_status : Option String
  root_disk : Option String
  root_lv_size : Option String
  swap_lv_size : Option String
  root_pwd : Option String
  isolcpus : Option String
  hugepages : Option Int
  hugepagesize : Option String
  os_version : Option String
  resource_type : Option String
  deriving DecidableEq, Repr

/-- Every `raise` reachable in the embedded fragment of `update_host`. -/
inductive UpdErr where
  | deletedHost
  | resourceTypeNotSupported
  | frozenRootDisk
  | noDisks
  | noSuchDisk
  | frozenRootLvSize
  | rootLvTooLarge
  | rootLvTooSmall
  | rootLvNotDigit
  | frozenSwapLvSize
  | noMemory
  | swapTooLarge
  | swapTooSmall
  | swapNotDigit
  | frozenRootPwd
  | frozenIsolcpus
  | noCpu
  | isolcpusRange
  | pyError
  | osStatusInvalid
  | frozenHugepages
  | hugepagesNegative
  | hugeMemExceeded
  | frozenHugepagesize
  | hugepagesizeUnsupported
  | hugepagesize2MTooBig
  | hugepagesize1GTooBig
  | dvsHugeTooSmall
  | frozenOsVersion
  deriving DecidableEq, Repr

/-- HTTP error class of a webob exception. -/
inductive HttpKind where
  | forbidden
  | badRequest
  | notFound
  | serverError
  deriving DecidableEq, Repr

/-- The webob exception class raised by the source for each error
(`pyError` stands for an uncaught Python exception, a 500). -/
def errKind : UpdErr → HttpKind
  | .deletedHost => .forbidden
  | .resourceTypeNotSupported => .notFound
  | .frozenRootDisk => .forbidden
  | .noDisks => .notFound
  | .noSuchDisk => .badRequest
  | .frozenRootLvSize => .forbidden
  | .rootLvTooLarge => .forbidden
  | .rootLvTooSmall => .forbidden
  | .rootLvNotDigit => .forbidden
  | .frozenSwapLvSize => .forbidden
  | .noMemory => .notFound
  | .swapTooLarge => .forbidden
  | .swapTooSmall => .forbidden
  | .swapNotDigit => .forbidden
  | .frozenRootPwd => .forbidden
  | .frozenIsolcpus => .forbidden
  | .noCpu => .notFound
  | .isolcpusRange => .forbidden
  | .pyError => .serverError
  | .osStatusInvalid => .notFound
  | .frozenHugepages => .forbidden
  | .hugepagesNegative => .badRequest
  | .hugeMemExceeded => .badRequest
  | .frozenHugepagesize => .forbidden
  | .hugepagesizeUnsupported => .badRequest
  | .hugepagesize2MTooBig => .forbidden
  | .hugepagesize1GTooBig => .badRequest
  | .dvsHugeTooSmall => .forbidden
  | .frozenOsVersion => .forbidden

/-- The freeze-once-installed rejections: the `Forbidden to update ... when
os_status is active` raises of `update_host`. -/
def isFrozenErr : UpdErr → Bool
  | .frozenRootDisk => true
  | .frozenRootLvSize => true
  | .frozenSwapLvSize => true
  | .frozenRootPwd => true
  | .frozenIsolcpus => true
  | .frozenHugepages => true
  | .frozenHugepagesize => true
  | .frozenOsVersion => true
  | _ => false

/-- The guard `host_meta.get('os_status', None) != 'init' and
orig_host_meta.get('os_status', None) == 'active'`.  The source evaluates
this same expression at the head of each freeze block; no block writes
`os_status`, so it is hoisted and computed once. -/
def freeze_cond (p : UPatch) (orig : OrigHost) : Bool :=
  p.os_status ≠ some "init" && orig.os_status = some "active"

def support_resource_type : List String := ["baremetal", "server", "docker"]

/-- root_disk block of `update_host` (hosts.py 1026-1055).  Returns the
patch together with the local `root_disk` name used by the next block; in
the freeze branch the source leaves that local unassigned (it is provably
never read there), so the stored name stands in for it. -/
def rootDiskBlock (fr : Bool) (p : UPatch) (orig : OrigHost) :
    Except UpdErr (UPatch × String) :=
  if fr then
    if strTruthy p.root_disk ∧ p.root_disk.getD "" ≠ orig.root_disk then
      .error .frozenRootDisk
    else .ok ({ p with root_disk := some orig.root_disk }, orig.root_disk)
  else
    let pr : UPatch × String :=
      if strTruthy p.root_disk then (p, p.root_disk.getD "")
      else if orig.root_disk ≠ "" then (p, orig.root_disk)
      else ({ p with root_disk := some "sda" }, "sda")
    if orig.disks = [] then .error .noDisks
    else if !(orig.disks.any (fun d => d.key = pr.2)) then .error .noSuchDisk
    else .ok pr

/-- The two numeric root-LV-size checks of hosts.py 1086-1111: the
requested size is rounded down to a multiple of 4 and compared against
the disk capacity in MB minus the 400 MB boot and 600 MB reserved
partitions, then against the 102400 MB floor. -/
def rootLvNumericCheck (root_lv_size : Nat) (sizeB : Nat) : Option UpdErr :=
  let root_disk_storage_size_m := sizeB / (1024 * 1024)
  let free : Int := (root_disk_storage_size_m : Int) - 400 - 600
  if ((root_lv_size / 4 * 4 : Nat) : Int) > free then some .rootLvTooLarge
  else if root_lv_size / 4 * 4 < 102400 then some .rootLvTooSmall
  else none

/-- root_lv_size block of `update_host` (hosts.py 1057-1119).  Returns the
patch and the local integer `root_lv_size` used by the swap block; as in
`rootDiskBlock`, the freeze branch leaves the local unassigned in the
source (never read there) and the stored value stands in for it. -/
def rootLvBlock (fr : Bool) (p : UPatch) (orig : OrigHost)
    (root_disk : String) : Except UpdErr (UPatch × Nat) :=
  if fr then
    if strTruthy p.root_lv_size then
      match pyInt (p.root_lv_size.getD "") with
      | none => .error .pyError
      | some v =>
        if v ≠ orig.root_lv_size then .error .frozenRootLvSize
        else .ok ({ p with root_lv_size := some (toString orig.root_lv_size) },
                  orig.root_lv_size.toNat)
    else .ok ({ p with root_lv_size := some (toString orig.root_lv_size) },
              orig.root_lv_size.toNat)
  else
    let pr : UPatch × String :=
      if strTruthy p.root_lv_size then (p, p.root_lv_size.getD "")
      else if orig.root_lv_size ≠ 0 then (p, toString orig.root_lv_size)
      else ({ p with root_lv_size := some "102400" }, "102400")
    if orig.disks = [] then .error .noDisks
    else if pyIsDigit pr.2 then
      let n := pyStrToNat pr.2
      match orig.disks.find? (fun d => d.key = root_disk) with
      | none => .error .pyError
      | some d =>
        match rootLvNumericCheck n d.size with
        | some e => .error e
        | none => .ok (pr.1, n)
    else .error .rootLvNotDigit

/-- The multipath/SAN exclusion and summation of hosts.py 1154-1168. -/
def localDiskSizeSum (disks : List Disk) : Nat :=
  disks.foldl (fun acc d =>
    if pyContains d.disk "-fc-" || pyContains d.disk "-iscsi-" ||
        pyContains d.name "mpath" || pyContains d.name "spath" then
      acc
    else acc + d.size) 0

/-- The role-size accumulation of hosts.py 1188-1198 over the matched
roles: `CONTROLLER_HA` contributes truthy `glance_lv_size`/`db_lv_size`,
`COMPUTER` contributes `nova_lv_size` unconditionally. -/
def roleSizes (roles_of_host : List KRole) : Nat × Nat × Nat :=
  roles_of_host.foldl (fun acc r =>
    let glance := if r.name = "CONTROLLER_HA" ∧ r.glance_lv_size ≠ 0 then
                    r.glance_lv_size else acc.1
    let db := if r.name = "CONTROLLER_HA" ∧ r.db_lv_size ≠ 0 then
                r.db_lv_size else acc.2.1
    let nova := if r.name = "COMPUTER" then r.nova_lv_size else acc.2.2
    (glance, db, nova)) (0, 0, 0)

/-- swap_lv_size block of `update_host` (hosts.py 1121-1232). -/
def swapBlock (fr : Bool) (p : UPatch) (orig : OrigHost)
    (roles : List KRole) (root_lv_size : Nat) : Except UpdErr UPatch :=
  if fr then
    if strTruthy p.swap_lv_size then
      match pyInt (p.swap_lv_size.getD "") with
      | none => .error .pyError
      | some v =>
        if v ≠ orig.swap_lv_size then .error .frozenSwapLvSize
        else .ok { p with swap_lv_size := some (toString orig.swap_lv_size) }
    else .ok { p with swap_lv_size := some (toString orig.swap_lv_size) }
  else
    let step : Except UpdErr (UPatch × String) :=
      if strTruthy p.swap_lv_size then .ok (p, p.swap_lv_size.getD "")
      else if orig.swap_lv_size ≠ 0 then .ok (p, toString orig.swap_lv_size)
      else
        match orig.memoryTotal with
        | none => .error .noMemory
        | some mem =>
          let sw := get_swap_lv_size_m (mem / 1024)
          .ok ({ p with swap_lv_size := some (toString sw) }, toString sw)
    match step with
    | .error e => .error e
    | .ok pr =>
      if pyIsDigit pr.2 then
        let n := pyStrToNat pr.2
        let disk_storage_size_m := localDiskSizeSum orig.disks / (1024 * 1024)
        let free : Int :=
          if orig.role ≠ [] then
            let roles_of_host := orig.role.flatMap (fun rn =>
              roles.filter (fun r => r.name = rn ∧ r.type = "default"))
            let gdn := roleSizes roles_of_host
            (disk_storage_size_m : Int) - 400 - 600 -
              (root_lv_size / 4 * 4 : Nat) - (gdn.1 / 4 * 4 : Nat) -
              (gdn.2.2 / 4 * 4 : Nat) - (gdn.2.1 / 4 * 4 : Nat)
          else
            (disk_storage_size_m : Int) - 400 - 600 -
              (root_lv_size / 4 * 4 : Nat)
        if ((n / 4 * 4 : Nat) : Int) > free then .error .swapTooLarge
        else if n / 4 * 4 < 2000 then .error .swapTooSmall
        else .ok pr.1
      else .error .swapNotDigit

/-- root_pwd block of `update_host` (hosts.py 1234-1254). -/
def rootPwdBlock (fr : Bool) (p : UPatch) (orig : OrigHost) :
    Except UpdErr UPatch :=
  if fr then
    if strTruthy p.root_pwd ∧ p.root_pwd.getD "" ≠ orig.root_pwd then
      .error .frozenRootPwd
    else .ok { p with root_pwd := some orig.root_pwd }
  else
    if !strTruthy p.root_pwd ∧ orig.root_pwd = "" then
      .ok { p with root_pwd := some "ossdbg1" }
    else .ok p

/-- The per-token range check of hosts.py 1288-1295. -/
def isolcpusTokensCheck : List String → Nat → Except UpdErr Unit
  | [], _ => .ok ()
  | t :: rest, cpu_num =>
    match pyInt t with
    | none => .error .pyError
    | some v =>
      if v < 0 ∨ v > (cpu_num : Int) - 1 then .error .isolcpusRange
      else isolcpusTokensCheck rest cpu_num

/-- isolcpus block of `update_host` (hosts.py 1256-1295). -/
def isolcpusBlock (fr : Bool) (p : UPatch) (orig : OrigHost) :
    Except UpdErr UPatch :=
  if fr then
    if strTruthy p.isolcpus ∧ p.isolcpus ≠ orig.isolcpus then
      .error .frozenIsolcpus
    else .ok { p with isolcpus := orig.isolcpus }
  else
    let pr : UPatch × Option String :=
      if strTruthy p.isolcpus then (p, p.isolcpus)
      else if strTruthy orig.isolcpus then (p, orig.isolcpus)
      else ({ p with isolcpus := none }, none)
    match orig.cpuTotal with
    | none => .error .noCpu
    | some cpu_num =>
      if strTruthy pr.2 then
        let toks := (pySplit (pr.2.getD "") ',').flatMap
          (fun v => pySplit v '-')
        match isolcpusTokensCheck toks cpu_num with
        | .error e => .error e
        | .ok _ => .ok pr.1
      else .ok pr.1

/-- `Controller._compute_hugepage_memory` (hosts.py 717-726). -/
def compute_hugepage_memory (hugepages : Int) (memory : Nat)
    (hugepagesize : String) : Except UpdErr Unit :=
  let hugepage_memory : Int :=
    if hugepagesize = "2M" then 2 * 1024 * hugepages
    else if hugepagesize = "1G" then 1 * 1024 * 1024 * hugepages
    else 0
  if hugepage_memory > (memory : Int) then .error .hugeMemExceeded
  else .ok ()

/-- hugepages block of `update_host` (hosts.py 1421-1453); the freeze
branch carries nothing forward. -/
def hugepagesBlock (fr : Bool) (p : UPatch) (orig : OrigHost) :
    Except UpdErr UPatch :=
  if fr then
    if (p.hugepages.elim false (fun n => n != 0)) &&
        p.hugepages != some orig.hugepages then
      .error .frozenHugepages
    else .ok p
  else
    match p.hugepages with
    | none => .ok p
    | some n =>
      match orig.memoryTotal with
      | none => .error .noMemory
      | some mem =>
        if n < 0 then .error .hugepagesNegative
        else if p.hugepagesize = none ∧ orig.hugepagesize ≠ "" then
          match compute_hugepage_memory n mem orig.hugepagesize with
          | .error e => .error e
          | .ok _ => .ok p
        else if p.hugepagesize = none ∧ orig.hugepagesize = "" then
          match compute_hugepage_memory n mem "1G" with
          | .error e => .error e
          | .ok _ => .ok p
        else .ok p

/-- hugepagesize block of `update_host` (hosts.py 1455-1500). -/
def hugepagesizeBlock (fr : Bool) (p : UPatch) (orig : OrigHost) :
    Except UpdErr UPatch :=
  if fr then
    if strTruthy p.hugepagesize ∧
        p.hugepagesize.getD "" ≠ orig.hugepagesize then
      .error .frozenHugepagesize
    else .ok p
  else
    match p.hugepagesize with
    | none => .ok p
    | some s =>
      match orig.memoryTotal with
      | none => .error .noMemory
      | some mem =>
        if s ∉ ["2M", "1G"] then .error .hugepagesizeUnsupported
        else if s = "2M" ∧ (2 * 1024 : Int) > (mem : Int) then
          .error .hugepagesize2MTooBig
        else if s = "1G" ∧ (1 * 1024 * 1024 : Int) > (mem : Int) then
          .error .hugepagesize1GTooBig
        else
          match p.hugepages with
          | some n =>
            match compute_hugepage_memory n mem s with
            | .error e => .error e
            | .ok _ => .ok p
          | none =>
            if orig.hugepages ≠ 0 then
              match compute_hugepage_memory orig.hugepages mem s with
              | .error e => .error e
              | .ok _ => .ok p
            else .ok p

/-- Modelled from the spec: `utils.get_dvs_interfaces` (daisy.common.utils
is not under src/); per §4.3 a host "running the dvs virtual-switch
interface type" is one with an interface whose `vswitch_type` is `dvs`. -/
def get_dvs_interfaces (host_interfaces : List Iface) : Bool :=
  host_interfaces.any (fun i => i.vswitch_type = some "dvs")

/-- `Controller._check_dvs_huge` (hosts.py 454-471) for a patch without an
`interfaces` key: the stored interface list is consulted. -/
def check_dvs_huge (p : UPatch) (orig : OrigHost) : Except UpdErr Unit :=
  if orig.interfaces ≠ [] ∧ get_dvs_interfaces orig.interfaces then
    if (p.hugepages.elim false (fun n => n < 10)) ||
        (p.hugepagesize.elim false (fun s => s != "1G")) then
      .error .dvsHugeTooSmall
    else .ok ()
  else .ok ()

/-- os_version freeze block of `update_host` (hosts.py 1504-1511). -/
def osVersionBlock (fr : Bool) (p : UPatch) (orig : OrigHost) :
    Except UpdErr UPatch :=
  if fr then
    if strTruthy p.os_version ∧ p.os_version.getD "" ≠ orig.os_version_file
    then .error .frozenOsVersion
    else .ok p
  else .ok p

/-- `Controller.update_host` (hosts.py 934-1563) for a patch without the
`interfaces`, `cluster`, `role` and `config_set_id` keys (those blocks of
the source are skipped for such a patch; the ipmi-credential defaulting of
lines 1412-1419 and the `os_progress`/`messages` defaulting of
`_ready_to_discover_host` touch only untracked fields).  Registry
persistence is modeled as always succeeding, so the returned patch is the
mapping handed to `registry.update_host_metadata`. -/
def update_host (p : UPatch) (orig : OrigHost) (roles : List KRole) :
    Except UpdErr UPatch :=
  if orig.deleted then .error .deletedHost
  else if (p.resource_type.elim false
      (fun r => !support_resource_type.contains r)) then
    .error .resourceTypeNotSupported
  else
    let fr := freeze_cond p orig
    match rootDiskBlock fr p orig with
    | .error e => .error e
    | .ok (p1, root_disk) =>
      match rootLvBlock fr p1 orig root_disk with
      | .error e => .error e
      | .ok (p2, root_lv_size) =>
        match swapBlock fr p2 orig roles root_lv_size with
        | .error e => .error e
        | .ok p3 =>
          match rootPwdBlock fr p3 orig with
          | .error e => .error e
          | .ok p4 =>
            match isolcpusBlock fr p4 orig with
            | .error e => .error e
            | .ok p5 =>
              if (p5.os_status.elim false (fun s =>
                  !(["init", "installing", "active", "failed",
                     "none"].contains s))) then
                .error .osStatusInvalid
              else
                match hugepagesBlock fr p5 orig with
                | .error e => .error e
                | .ok p6 =>
                  match hugepagesizeBlock fr p6 orig with
                  | .error e => .error e
                  | .ok p7 =>
                    match check_dvs_huge p7 orig with
                    | .error e => .error e
                    | .ok _ =>
                      match osVersionBlock fr p7 orig with
                      | .error e => .error e
                      | .ok p8 => .ok p8

/-- The root_disk value stored after an `update_host` call: on success the
registry merges the returned patch over the stored row (an absent key
keeps the stored value); a raised error aborts before any persistence. -/
def storedRootDiskAfter (p : UPatch) (orig : OrigHost)
    (roles : List KRole) : String :=
  match update_host p orig roles with
  | .ok p2 => p2.root_disk.getD orig.root_disk
  | .error _ => orig.root_disk

end Daisy

namespace Daisy

/-- HTTP error class raised for each `AddErr` by the source:
`same_pci` and the dmi mismatch raise Forbidden, the active-host rejection
of `_check_add_host_interfaces` raises BadRequest. -/
def addErrKind : AddErr → HttpKind
  | .samePciForbidden => .forbidden
  | .dmiUuidMismatch => .forbidden
  | .activeHostExists => .badRequest

/-- An empty update patch (all keys absent). -/
def emptyPatch : UPatch :=
  ⟨none, none, none, none, none, none, none, none, none, none⟩

/-- A stored host with an active OS, one 500 GB root disk `sda` plus a
second local disk, 8 GB memory (in KB) and 8 cpus. -/
def origActive : OrigHost :=
  { deleted := false
    os_status := some "active"
    root_disk := "sda"
    root_lv_size := 102400
    swap_lv_size := 4096
    root_pwd := "ossdbg1"
    isolcpus := none
    hugepages := 0
    hugepagesize := ""
    os_version_file := ""
    disks := [⟨"sda", "/dev/sda", "sda", 500 * 1024 * 1024 * 1024⟩,
              ⟨"sdb", "/dev/sdb", "sdb", 500 * 1024 * 1024 * 1024⟩]
    memoryTotal := some (8 * 1024 * 1024)
    cpuTotal := some 8
    role := []
    interfaces := [] }

/-- The same stored host with `os_status` still `init`. -/
def origInit : OrigHost := { origActive with os_status := some "init" }

/-- A stored host whose root disk has capacity exactly C = 103400 MB
(C % 4 = 0), plus a second local disk for swap headroom. -/
def origC4 : OrigHost :=
  { origActive with
    os_status := some "init"
    disks := [⟨"sda", "/dev/sda", "sda", 103400 * 1024 * 1024⟩,
              ⟨"sdb", "/dev/sdb", "sdb", 500 * 1024 * 1024 * 1024⟩] }

/-- A stored DiscoverHost record already discovered successfully. -/
def dSucc : DRec :=
  ⟨"d1", "10.0.0.1", "root", "pw", "DISCOVERY_SUCCESSFUL", "done", "h1"⟩

/-- A stored DiscoverHost record in the failed terminal state. -/
def dFail : DRec :=
  ⟨"d2", "10.0.0.2", "root", "pw", "DISCOVERY_FAILED", "boom", ""⟩

/-- A fresh DiscoverHost record. -/
def dInit : DRec :=
  ⟨"d3", "10.0.0.9", "root", "pw", "init", "", ""⟩

/-- A deployment-marked ether interface with mac `aa:aa`. -/
def pxeIface : Iface :=
  ⟨some "eth0", some "aa:aa", some "0000:00:03.0", some "ether",
   some "True", none⟩

/-- A registered active host carrying an ether interface with the same
mac `aa:aa` and a stored `dmi_uuid` of `dmi-B`. -/
def nodeActiveDmi : ExistHost :=
  ⟨"H1", some "active", some "dmi-B",
   [⟨some "ens33", some "aa:aa", some "0000:00:05.0", some "ether",
     none, none⟩]⟩

end Daisy

namespace Daisy

/-- C2: a bond must have exactly 2 distinct slaves drawn from the ether
nic names, and a bond with 1 or 3 distinct slaves always fails; but the
no-overlap rule promised by the claim (and by the function's own
docstring) is not enforced: two bonds sharing the slave `eth0` pass
`check_bond_slaves_validity`. -/
theorem C2_bond_overlap_accepted :
    check_bond_slaves_validity [["eth0", "eth1"], ["eth0", "eth2"]]
      ["eth0", "eth1", "eth2"] = .ok () ∧
    check_bond_slaves_validity [["eth0"]] ["eth0", "eth1", "eth2"] =
      .error .slavesNotTwo ∧
    check_bond_slaves_validity [["eth0", "eth1", "eth2"]]
      ["eth0", "eth1", "eth2"] = .error .slavesNotTwo ∧
    check_bond_slaves_validity [["eth0", "eth0"]] ["eth0", "eth1"] =
      .error .slavesNotTwo ∧
    check_bond_slaves_validity [["eth0", "eth3"]] ["eth0", "eth1"] =
      .error .slaveNotEther :=
  ⟨rfl, rfl, rfl, rfl, rfl⟩

/-- C3: for a key of `uuid_keys` stored as None, `update_password_yml`
does not keep the freshly drawn UUID; the missing `elif` lets the generic
40-character draw overwrite it.  The keystone key, blank keys, SSH keys
and non-None values behave as the claim states. -/
theorem C3_uuid_key_gets_rand40 :
    fillPassword ⟨"priv", "pub", "uuid-draw", "rand40-draw"⟩
      "ceph_cluster_fsid" .vnone = .vstr "rand40-draw" ∧
    PVal.vstr "rand40-draw" ≠ PVal.vstr "uuid-draw" ∧
    fillPassword ⟨"priv", "pub", "uuid-draw", "rand40-draw"⟩
      "rbd_secret_uuid" .vnone = .vstr "rand40-draw" ∧
    fillPassword ⟨"priv", "pub", "uuid-draw", "rand40-draw"⟩
      "keystone_admin_password" .vnone = .vstr "keystone" ∧
    fillPassword ⟨"priv", "pub", "uuid-draw", "rand40-draw"⟩
      "docker_registry_password" .vnone = .vnone ∧
    fillPassword ⟨"priv", "pub", "uuid-draw", "rand40-draw"⟩
      "nova_ssh_key" .vnone = .vkeys (some "priv") (some "pub") ∧
    fillPassword ⟨"priv", "pub", "uuid-draw", "rand40-draw"⟩
      "database_password" (.vstr "kept") = .vstr "kept" := by
  decide

/-- C5: `_get_swap_lv_size_m` is the documented step function, is
monotonic non-decreasing, and its range is exactly
4096, 8192, 32768, 65536. -/
theorem C5_swap_size_step :
    (∀ m : Nat, m ≤ 4096 → get_swap_lv_size_m m = 4096) ∧
    (∀ m : Nat, 4096 < m → m ≤ 16384 → get_swap_lv_size_m m = 8192) ∧
    (∀ m : Nat, 16384 < m → m ≤ 65536 → get_swap_lv_size_m m = 32768) ∧
    (∀ m : Nat, 65536 < m → get_swap_lv_size_m m = 65536) ∧
    (∀ m n : Nat, m ≤ n → get_swap_lv_size_m m ≤ get_swap_lv_size_m n) ∧
    (∀ m : Nat,
      get_swap_lv_size_m m ∈ ([4096, 8192, 32768, 65536] : List Nat)) ∧
    (∀ v ∈ ([4096, 8192, 32768, 65536] : List Nat),
      ∃ m : Nat, get_swap_lv_size_m m = v) := by
  refine ⟨?_, ?_, ?_, ?_, ?_, ?_, ?_⟩
  · intro m h; simp only [get_swap_lv_size_m]; split_ifs; rfl
  · intro m h1 h2; simp only [get_swap_lv_size_m]; split_ifs <;> omega
  · intro m h1 h2; simp only [get_swap_lv_size_m]; split_ifs <;> omega
  · intro m h; simp only [get_swap_lv_size_m]; split_ifs <;> omega
  · intro m n h; simp only [get_swap_lv_size_m]; split_ifs <;> omega
  · intro m; simp only [get_swap_lv_size_m]; split_ifs <;> simp
  · intro v hv
    simp only [List.mem_cons, List.not_mem_nil, or_false] at hv
    rcases hv with h | h | h | h
    · exact ⟨0, by subst h; decide⟩
    · exact ⟨5000, by subst h; decide⟩
    · exact ⟨20000, by subst h; decide⟩
    · exact ⟨70000, by subst h; decide⟩

/-- C5 witness: the step function at the documented boundaries. -/
theorem C5_swap_size_step_witness :
    get_swap_lv_size_m 4096 = 4096 ∧ get_swap_lv_size_m 4097 = 8192 ∧
    get_swap_lv_size_m 16384 = 8192 ∧ get_swap_lv_size_m 16385 = 32768 ∧
    get_swap_lv_size_m 65536 = 32768 ∧ get_swap_lv_size_m 65537 = 65536 ∧
    get_swap_lv_size_m 4096 ≤ get_swap_lv_size_m 65537 :=
  ⟨C5_swap_size_step.1 4096 (by decide),
   C5_swap_size_step.2.1 4097 (by decide) (by decide),
   C5_swap_size_step.2.1 16384 (by decide) (by decide),
   C5_swap_size_step.2.2.1 16385 (by decide) (by decide),
   C5_swap_size_step.2.2.1 65536 (by decide) (by decide),
   C5_swap_size_step.2.2.2.1 65537 (by decide),
   C5_swap_size_step.2.2.2.2.1 4096 65537 (by decide)⟩

end Daisy

namespace Daisy

/-- C4 counterexample: for a root disk of capacity C = 103400 MB, the
requested size C − 999 = 102401 rounds down to 102400, which is both at
the 102400 floor and within C − 1000, so the check passes — the claim
that a requested size of C − 999 always fails is false.  The full
`update_host` pipeline accepts the same request. -/
theorem C4_counterexample_Cminus999_passes :
    (103400 * 1024 * 1024) / (1024 * 1024) = 103400 ∧
    rootLvNumericCheck (103400 - 999) (103400 * 1024 * 1024) = none ∧
    update_host { emptyPatch with root_lv_size := some "102401" } origC4 [] =
      .ok { emptyPatch with root_lv_size := some "102401" } :=
  ⟨by norm_num, rfl, by decide⟩

/-- C4 (amended): with C the root-disk capacity in MB (size in bytes
divided by 1024·1024), the requested size is rounded down to a multiple
of 4; a rounded value below 102400 is rejected, a rounded value exceeding
C − 400 − 600 is rejected, and any multiple of 4 with
102400 ≤ size ≤ C − 1000 succeeds; a requested 102096 always fails, and a
requested C − 999 fails when C ≡ 3 (mod 4) (otherwise it rounds down to
at most C − 1000 and can succeed). -/
theorem C4_rootLvSize_amended :
    (∀ (n C sizeB : Nat), sizeB / (1024 * 1024) = C →
      (n / 4 * 4 < 102400 → rootLvNumericCheck n sizeB ≠ none) ∧
      (((n / 4 * 4 : Nat) : Int) > (C : Int) - 1000 →
        rootLvNumericCheck n sizeB ≠ none) ∧
      (4 ∣ n → 102400 ≤ n → (n : Int) ≤ (C : Int) - 1000 →
        rootLvNumericCheck n sizeB = none)) ∧
    (∀ sizeB : Nat, rootLvNumericCheck 102096 sizeB ≠ none) ∧
    (∀ (C sizeB : Nat), sizeB / (1024 * 1024) = C → C % 4 = 3 → 999 ≤ C →
      rootLvNumericCheck (C - 999) sizeB ≠ none) := by
  refine ⟨?_, ?_, ?_⟩
  · intro n C sizeB hC
    refine ⟨?_, ?_, ?_⟩
    · intro h
      simp only [rootLvNumericCheck, hC]
      split_ifs with h1
      · simp
      · simp
    · intro h
      simp only [rootLvNumericCheck, hC]
      split_ifs with h1 h2
      · simp
      · simp
      · exact absurd (show ((n / 4 * 4 : Nat) : Int) >
          (C : Int) - 400 - 600 by omega) h1
    · intro h4 hlo hhi
      have hr : n / 4 * 4 = n := Nat.div_mul_cancel h4
      simp only [rootLvNumericCheck, hC]
      split_ifs with h1 h2
      · rw [hr] at h1; omega
      · rw [hr] at h2; omega
      · rfl
  · intro sizeB
    simp only [rootLvNumericCheck]
    split_ifs with h1 h2
    · simp
    · simp
    · exact absurd (show (102096 : Nat) / 4 * 4 < 102400 by norm_num) h2
  · intro C sizeB hC h3 h999
    have hdvd : 4 ∣ (C - 999) := by omega
    have hr : (C - 999) / 4 * 4 = C - 999 := Nat.div_mul_cancel hdvd
    simp only [rootLvNumericCheck, hC]
    split_ifs with h1 h2
    · simp
    · simp
    · rw [hr] at h1; omega

/-- C4 witness: the amended theorem at concrete inputs — C = 200000:
102396 rounds below the floor and fails, 199004 exceeds C − 1000 and
fails, 102400 succeeds; 102096 fails; C = 103403 (≡ 3 mod 4) rejects
C − 999 = 102404. -/
theorem C4_rootLvSize_amended_witness :
    rootLvNumericCheck 102396 (200000 * 1024 * 1024) ≠ none ∧
    rootLvNumericCheck 199004 (200000 * 1024 * 1024) ≠ none ∧
    rootLvNumericCheck 102400 (200000 * 1024 * 1024) = none ∧
    rootLvNumericCheck 102096 (200000 * 1024 * 1024) ≠ none ∧
    rootLvNumericCheck (103403 - 999) (103403 * 1024 * 1024) ≠ none :=
  ⟨(C4_rootLvSize_amended.1 102396 200000 _ (by norm_num)).1 (by norm_num),
   (C4_rootLvSize_amended.1 199004 200000 _ (by norm_num)).2.1 (by norm_num),
   (C4_rootLvSize_amended.1 102400 200000 _ (by norm_num)).2.2
     (by norm_num) (by norm_num) (by norm_num),
   C4_rootLvSize_amended.2.1 _,
   C4_rootLvSize_amended.2.2 103403 _ (by norm_num) (by norm_num)
     (by norm_num)⟩

end Daisy

namespace Daisy

/-- Helper: a non-empty string is not `isEmpty`. -/
theorem isEmpty_false_of_ne (s : String) (h : s ≠ "") :
    s.isEmpty = false := by
  cases hb : s.isEmpty
  · rfl
  · exact absurd ((String.isEmpty_iff s).mp hb) h

/-- Helper: a present, non-empty string field is truthy. -/
theorem strTruthy_some_true (s : String) (h : s ≠ "") :
    strTruthy (some s) = true := by
  simp [strTruthy, isEmpty_false_of_ne s h]

/-- C6 counterexample: resubmitting the ip of a record already in the
terminal state `DISCOVERY_SUCCESSFUL` does not reset it to `init`; the
call fails with Forbidden ("already existed and this host has been
discovered successfully"), so only the failed terminal state can be
retried by resubmission. -/
theorem C6_counterexample_successful_forbidden :
    add_discover_host ⟨some "10.0.0.1", none, some "pw", none⟩ [dSucc] =
      .error .alreadyDiscovered := by
  decide

/-- C6 (amended): resubmitting a discover-host request for an ip already
stored resets the matched record to status `init` (keeping submitted or
stored credentials) exactly when that record's status is not
`DISCOVERY_SUCCESSFUL` — so retry-by-resubmission works for
`DISCOVERY_FAILED` (and any other non-successful state) but a
`DISCOVERY_SUCCESSFUL` record makes the call fail with Forbidden. -/
theorem C6_retry_amended :
    ∀ (host_meta : DiscMeta) (store : List DRec) (host : DRec)
      (ipv : String),
      host_meta.ip = some ipv → ipv ≠ "" →
      store.find? (fun h => h.ip = ipv) = some host →
      (host.status ≠ "DISCOVERY_SUCCESSFUL" →
        add_discover_host host_meta store =
          .ok { host with
                ip := ipv
                passwd := host_meta.passwd.getD host.passwd
                user := host_meta.user.getD host.user
                status := "init"
                message := "None" }) ∧
      (host.status = "DISCOVERY_SUCCESSFUL" →
        add_discover_host host_meta store = .error .alreadyDiscovered) := by
  intro host_meta store host ipv hip hne hfind
  have hmem : host ∈ store := List.mem_of_find?_eq_some hfind
  have hip2 : host.ip = ipv := by
    have h := List.find?_some hfind
    simpa using h
  have hTr : strTruthy (some ipv) = true := strTruthy_some_true ipv hne
  have hmemIp : ipv ∈ (store.filter (fun h => h.ip ≠ "")).map (·.ip) := by
    refine List.mem_map.mpr ⟨host, List.mem_filter.mpr ⟨hmem, ?_⟩, hip2⟩
    simp [hip2, hne]
  constructor
  · intro hstat
    simp only [add_discover_host, hip, hTr, Bool.not_true,
      Bool.false_eq_true, if_false, Option.getD_some, if_pos hmemIp, hfind]
    simp [hstat]
  · intro hstat
    simp only [add_discover_host, hip, hTr, Bool.not_true,
      Bool.false_eq_true, if_false, Option.getD_some, if_pos hmemIp, hfind]
    simp [hstat]

/-- C6 witness: a `DISCOVERY_FAILED` record for 10.0.0.2 is reset to
`init` with the newly submitted password, and the `DISCOVERY_SUCCESSFUL`
record for 10.0.0.1 is rejected. -/
theorem C6_retry_amended_witness :
    add_discover_host ⟨some "10.0.0.2", none, some "pw2", none⟩
      [dSucc, dFail] =
      .ok { dFail with
            passwd := "pw2"
            status := "init"
            message := "None" } ∧
    add_discover_host ⟨some "10.0.0.1", some "u2", some "pw", none⟩
      [dSucc, dFail] = .error .alreadyDiscovered := by
  constructor
  · have h := (C6_retry_amended ⟨some "10.0.0.2", none, some "pw2", none⟩
      [dSucc, dFail] dFail "10.0.0.2" rfl (by decide) (by decide)).1
      (by decide)
    simpa [dFail] using h
  · exact (C6_retry_amended ⟨some "10.0.0.1", some "u2", some "pw", none⟩
      [dSucc, dFail] dSucc "10.0.0.1" rfl (by decide) (by decide)).2 rfl

end Daisy

namespace Daisy

/-- C7: in `discover_host_bin`, (1) every loaded record whose snapshot
status is not `DISCOVERY_SUCCESSFUL` is first written back with status
`DISCOVERING` (host id cleared to the string `None`); (2) every record
whose ip equals the ip of some registered host interface ends the batch as
`DISCOVERY_SUCCESSFUL` carrying the first matching interface's host id,
and no probe thread is started for it. -/
theorem C7_discovery_batch :
    (∀ r : DRec, r.status ≠ "DISCOVERY_SUCCESSFUL" →
      (markDiscovering r).status = "DISCOVERING" ∧
      (markDiscovering r).message = "DISCOVERING" ∧
      (markDiscovering r).host_id = "None") ∧
    (∀ (records : List DRec) (host_interfaces : List HIfaceRow)
        (r : DRec) (h : HIfaceRow),
      r ∈ records →
      host_interfaces.find? (fun x => r.ip = x.ip) = some h →
      shortCircuitKnownIp host_interfaces r ∈
        (discover_host_bin records host_interfaces).1 ∧
      (shortCircuitKnownIp host_interfaces r).status =
        "DISCOVERY_SUCCESSFUL" ∧
      (shortCircuitKnownIp host_interfaces r).host_id = h.host_id ∧
      r ∉ (discover_host_bin records host_interfaces).2) := by
  constructor
  · intro r h
    simp [markDiscovering, h]
  · intro records host_interfaces r h hr hfind
    refine ⟨?_, ?_, ?_, ?_⟩
    · exact List.mem_map_of_mem (shortCircuitKnownIp host_interfaces) hr
    · simp [shortCircuitKnownIp, hfind]
    · simp [shortCircuitKnownIp, hfind]
    · intro hc
      have hp := (List.mem_filter.mp hc).2
      simp [hfind] at hp

/-- C7 witness: a batch over one failed and one fresh record, where the
failed record's ip 10.0.0.2 is already registered to host `hostA`. -/
theorem C7_discovery_batch_witness :
    (markDiscovering dInit).status = "DISCOVERING" ∧
    (markDiscovering dInit).message = "DISCOVERING" ∧
    (markDiscovering dInit).host_id = "None" ∧
    shortCircuitKnownIp [⟨"hostA", "10.0.0.2"⟩] dFail ∈
      (discover_host_bin [dFail, dInit] [⟨"hostA", "10.0.0.2"⟩]).1 ∧
    (shortCircuitKnownIp [⟨"hostA", "10.0.0.2"⟩] dFail).status =
      "DISCOVERY_SUCCESSFUL" ∧
    (shortCircuitKnownIp [⟨"hostA", "10.0.0.2"⟩] dFail).host_id = "hostA" ∧
    dFail ∉ (discover_host_bin [dFail, dInit] [⟨"hostA", "10.0.0.2"⟩]).2 := by
  have h1 := C7_discovery_batch.1 dInit (by decide)
  have h2 := C7_discovery_batch.2 [dFail, dInit] [⟨"hostA", "10.0.0.2"⟩]
    dFail ⟨"hostA", "10.0.0.2"⟩ (by simp) (by decide)
  exact ⟨h1.1, h1.2.1, h1.2.2, h2.1, h2.2.1, h2.2.2.1, h2.2.2.2⟩

end Daisy

namespace Daisy

/-- C8: within one submitted interface list, two ether interfaces with
the same non-empty pci and different (non-empty) names always make
`_verify_interface_in_same_host` raise Forbidden, while duplicate macs
across non-bond interfaces never cause a rejection by themselves — the
function returns normally whenever `same_pci_list` is empty, with the
duplicated-mac names only recorded in the logged warning list. -/
theorem C8_pci_reject_mac_warn :
    (∀ (interfaces : List Iface) (i1 i2 : Iface) (n1 n2 pc : String),
      i1 ∈ interfaces → i2 ∈ interfaces →
      i1.name = some n1 → i2.name = some n2 →
      n1 ≠ "" → n2 ≠ "" → n1 ≠ n2 →
      i1.pci = some pc → i2.pci = some pc → pc ≠ "" →
      i1.type = some "ether" → i2.type = some "ether" →
      verify_interface_in_same_host interfaces =
        .error .samePciForbidden ∧
      addErrKind .samePciForbidden = .forbidden) ∧
    (∀ interfaces : List Iface, same_pci_list interfaces = [] →
      verify_interface_in_same_host interfaces =
        .ok (same_mac_list interfaces)) ∧
    (∀ (interfaces : List Iface) (i1 i2 : Iface) (n1 n2 mc : String),
      i1 ∈ interfaces → i2 ∈ interfaces →
      i1.name = some n1 → i2.name = some n2 →
      n1 ≠ "" → n2 ≠ "" → n1 ≠ n2 →
      i1.mac = some mc → i2.mac = some mc → mc ≠ "" →
      strTruthy i1.type = true → strTruthy i2.type = true →
      i1.type ≠ some "bond" → i2.type ≠ some "bond" →
      n1 ∈ same_mac_list interfaces) := by
  refine ⟨?_, ?_, ?_⟩
  · intro interfaces i1 i2 n1 n2 pc hm1 hm2 hn1 hn2 hne1 hne2 hnn
      hp1 hp2 hpc hty1 hty2
    have hp : samePciPair i1 i2 = true := by
      simp [samePciPair, hn1, hn2, hp1, hp2, hty1, hty2, hnn, strTruthy,
        isEmpty_false_of_ne n1 hne1, isEmpty_false_of_ne n2 hne2,
        isEmpty_false_of_ne pc hpc,
        isEmpty_false_of_ne "ether" (by decide)]
    have hmem : i1.name.getD "" ∈ same_pci_list interfaces := by
      unfold same_pci_list
      exact List.mem_flatMap.mpr
        ⟨i1, hm1, List.mem_map.mpr ⟨i2, List.mem_filter.mpr ⟨hm2, hp⟩, rfl⟩⟩
    have hnil : same_pci_list interfaces ≠ [] := List.ne_nil_of_mem hmem
    exact ⟨by simp [verify_interface_in_same_host, hnil], rfl⟩
  · intro interfaces h
    simp [verify_interface_in_same_host, h]
  · intro interfaces i1 i2 n1 n2 mc hm1 hm2 hn1 hn2 hne1 hne2 hnn
      hmc1 hmc2 hmcne hty1 hty2 hb1 hb2
    have hp : sameMacPair i1 i2 = true := by
      simp [sameMacPair, hn1, hn2, hmc1, hmc2, hnn, hb1, hb2, hty1, hty2,
        strTruthy_some_true n1 hne1, strTruthy_some_true n2 hne2,
        strTruthy_some_true mc hmcne]
    have : i1.name.getD "" ∈ same_mac_list interfaces := by
      unfold same_mac_list
      exact List.mem_flatMap.mpr
        ⟨i1, hm1, List.mem_map.mpr ⟨i2, List.mem_filter.mpr ⟨hm2, hp⟩, rfl⟩⟩
    simpa [hn1] using this

/-- C8 witness: two ether interfaces sharing mac `aa:aa` but with
distinct pcis pass with the duplicate-mac warning recorded, and the same
two interfaces with a shared pci are rejected. -/
theorem C8_pci_reject_mac_warn_witness :
    verify_interface_in_same_host
      [⟨some "eth0", some "aa:aa", some "p1", some "ether", none, none⟩,
       ⟨some "eth1", some "aa:aa", some "p1", some "ether", none, none⟩] =
      .error .samePciForbidden ∧
    addErrKind .samePciForbidden = .forbidden ∧
    verify_interface_in_same_host
      [⟨some "eth0", some "aa:aa", some "p1", some "ether", none, none⟩,
       ⟨some "eth1", some "aa:aa", some "p2", some "ether", none, none⟩] =
      .ok (same_mac_list
        [⟨some "eth0", some "aa:aa", some "p1", some "ether", none, none⟩,
         ⟨some "eth1", some "aa:aa", some "p2", some "ether", none, none⟩]) ∧
    "eth0" ∈ same_mac_list
      [⟨some "eth0", some "aa:aa", some "p1", some "ether", none, none⟩,
       ⟨some "eth1", some "aa:aa", some "p2", some "ether", none, none⟩] := by
  refine ⟨?_, rfl, ?_, ?_⟩
  · exact (C8_pci_reject_mac_warn.1 _
      ⟨some "eth0", some "aa:aa", some "p1", some "ether", none, none⟩
      ⟨some "eth1", some "aa:aa", some "p1", some "ether", none, none⟩
      "eth0" "eth1" "p1" (by simp) (by simp) rfl rfl (by decide) (by decide)
      (by decide) rfl rfl (by decide) rfl rfl).1
  · exact C8_pci_reject_mac_warn.2.1 _ (by decide)
  · exact C8_pci_reject_mac_warn.2.2 _
      ⟨some "eth0", some "aa:aa", some "p1", some "ether", none, none⟩
      ⟨some "eth1", some "aa:aa", some "p2", some "ether", none, none⟩
      "eth0" "eth1" "aa:aa" (by simp) (by simp) rfl rfl (by decide)
      (by decide) (by decide) rfl rfl (by decide) (by decide) (by decide)
      (by decide) (by decide)

end Daisy

namespace Daisy

/-- C10 counterexample: with a registered *active* host whose non-bond
interface carries the deployment mac but whose stored `dmi_uuid` differs
from the request's, AddHost fails with Forbidden (the dmi-mismatch raise
of `_verify_interface_among_hosts`), not with BadRequest as the claim
states. -/
theorem C10_counterexample_dmi_forbidden :
    check_add_host_exist_branch [pxeIface] (some "dmi-A") [nodeActiveDmi] =
      .error .dmiUuidMismatch ∧
    addErrKind .dmiUuidMismatch = .forbidden ∧
    addErrKind .dmiUuidMismatch ≠ .badRequest := by
  refine ⟨by decide, rfl, by decide⟩

/-- C10 (amended): when the registered-host scan returns a match (a
truthy host id) — which requires the matched host's stored `dmi_uuid` to
be unset or equal to the request's — an `os_status` of `active` makes
AddHost fail with BadRequest, performing neither insert nor update, and
any other `os_status` degenerates the call into an update of the existing
host returning its id; when the scan instead raises the dmi-uuid
mismatch, AddHost fails with Forbidden. -/
theorem C10_add_host_exist_amended :
    (∀ (interfaces : List Iface) (input_dmi : Option String)
        (existing : List ExistHost) (exist_id : String)
        (os_status : Option String),
      verify_interface_among_hosts interfaces input_dmi existing =
        .ok (some (exist_id, os_status)) →
      exist_id ≠ "" →
      (os_status = some "active" →
        check_add_host_exist_branch interfaces input_dmi existing =
          .error .activeHostExists ∧
        addErrKind .activeHostExists = .badRequest) ∧
      (os_status ≠ some "active" →
        check_add_host_exist_branch interfaces input_dmi existing =
          .ok (.updatedExisting exist_id))) ∧
    (∀ (interfaces : List Iface) (input_dmi : Option String)
        (existing : List ExistHost),
      verify_interface_among_hosts interfaces input_dmi existing =
        .error .dmiUuidMismatch →
      check_add_host_exist_branch interfaces input_dmi existing =
        .error .dmiUuidMismatch ∧
      addErrKind .dmiUuidMismatch = .forbidden) := by
  constructor
  · intro interfaces input_dmi existing exist_id os_status hv hid
    constructor
    · intro hact
      refine ⟨?_, rfl⟩
      simp only [check_add_host_exist_branch, hv, hact]
      simp [Bind.bind, Except.bind, hid]
    · intro hact
      simp only [check_add_host_exist_branch, hv]
      simp [Bind.bind, Except.bind, hid, hact]
  · intro interfaces input_dmi existing hv
    refine ⟨?_, rfl⟩
    simp only [check_add_host_exist_branch, hv]
    simp [Bind.bind, Except.bind]

/-- C10 witness: the amended theorem at a registered active host without
a dmi constraint (BadRequest), the same host with `os_status` `init`
(update of the existing id), and the dmi-mismatch store (Forbidden). -/
theorem C10_add_host_exist_amended_witness :
    (check_add_host_exist_branch [pxeIface] (some "dmi-A")
        [⟨"H1", some "active", none,
          [⟨some "ens33", some "aa:aa", some "p9", some "ether",
            none, none⟩]⟩] =
      .error .activeHostExists ∧
     addErrKind .activeHostExists = .badRequest) ∧
    check_add_host_exist_branch [pxeIface] (some "dmi-A")
        [⟨"H2", some "init", none,
          [⟨some "ens33", some "aa:aa", some "p9", some "ether",
            none, none⟩]⟩] =
      .ok (.updatedExisting "H2") ∧
    check_add_host_exist_branch [pxeIface] (some "dmi-A")
        [nodeActiveDmi] = .error .dmiUuidMismatch := by
  refine ⟨?_, ?_, ?_⟩
  · exact (C10_add_host_exist_amended.1 [pxeIface] (some "dmi-A")
      [⟨"H1", some "active", none,
        [⟨some "ens33", some "aa:aa", some "p9", some "ether",
          none, none⟩]⟩] "H1" (some "active") (by decide) (by decide)).1 rfl
  · exact (C10_add_host_exist_amended.1 [pxeIface] (some "dmi-A")
      [⟨"H2", some "init", none,
        [⟨some "ens33", some "aa:aa", some "p9", some "ether",
          none, none⟩]⟩] "H2" (some "init") (by decide) (by decide)).2
      (by decide)
  · exact (C10_add_host_exist_amended.2 [pxeIface] (some "dmi-A")
      [nodeActiveDmi] (by decide)).1

end Daisy

namespace Daisy

/-- Helper: the numeric root-LV check only produces sizing errors. -/
theorem rootLvNumericCheck_not_frozen (n szB : Nat) (e : UpdErr)
    (h : rootLvNumericCheck n szB = some e) : isFrozenErr e = false := by
  simp only [rootLvNumericCheck] at h
  repeat' split at h
  all_goals try (injection h with h)
  all_goals try subst h
  all_goals try rfl
  all_goals simp_all

/-- Helper: the isolcpus token check only produces range/parse errors. -/
theorem isolcpusTokensCheck_not_frozen (toks : List String) (cpu : Nat)
    (e : UpdErr) (h : isolcpusTokensCheck toks cpu = .error e) :
    isFrozenErr e = false := by
  induction toks with
  | nil => simp [isolcpusTokensCheck] at h
  | cons t rest ih =>
    simp only [isolcpusTokensCheck] at h
    repeat' split at h
    all_goals try (injection h with h)
    all_goals try subst h
    all_goals first | rfl | exact ih h

/-- Helper: the hugepage-memory check only produces a BadRequest error. -/
theorem compute_hugepage_memory_not_frozen (n : Int) (mem : Nat)
    (sz : String) (e : UpdErr)
    (h : compute_hugepage_memory n mem sz = .error e) :
    isFrozenErr e = false := by
  simp only [compute_hugepage_memory] at h
  repeat' split at h
  all_goals try (injection h with h)
  all_goals try subst h
  all_goals try rfl
  all_goals simp_all

/-- Helper: outside the freeze branch, the root_disk block raises no
freeze error. -/
theorem rootDiskBlock_false_not_frozen (p : UPatch) (orig : OrigHost)
    (e : UpdErr) (h : rootDiskBlock false p orig = .error e) :
    isFrozenErr e = false := by
  simp only [rootDiskBlock, Bool.false_eq_true, reduceIte] at h
  repeat' split at h
  all_goals try (injection h with h)
  all_goals try subst h
  all_goals try rfl
  all_goals simp_all

/-- Helper: outside the freeze branch, the root_lv_size block raises no
freeze error. -/
theorem rootLvBlock_false_not_frozen (p : UPatch) (orig : OrigHost)
    (rd : String) (e : UpdErr)
    (h : rootLvBlock false p orig rd = .error e) :
    isFrozenErr e = false := by
  simp only [rootLvBlock, Bool.false_eq_true, reduceIte] at h
  repeat' split at h
  all_goals try (injection h with h)
  all_goals try subst h
  all_goals try rfl
  all_goals try simp_all
  all_goals exact rootLvNumericCheck_not_frozen _ _ _ (by assumption)

/-- Helper: outside the freeze branch, the swap_lv_size block raises no
freeze error. -/
theorem swapBlock_false_not_frozen (p : UPatch) (orig : OrigHost)
    (roles : List KRole) (rl : Nat) (e : UpdErr)
    (h : swapBlock false p orig roles rl = .error e) :
    isFrozenErr e = false := by
  simp only [swapBlock, Bool.false_eq_true, reduceIte] at h
  repeat' split at h
  all_goals try (injection h with h)
  all_goals try subst h
  all_goals try rfl
  all_goals rename_i heq
  all_goals repeat' split at heq
  all_goals try (injection heq with heq)
  all_goals try subst heq
  all_goals simp_all [isFrozenErr]

/-- Helper: outside the freeze branch, the root_pwd block never raises. -/
theorem rootPwdBlock_false_not_frozen (p : UPatch) (orig : OrigHost)
    (e : UpdErr) (h : rootPwdBlock false p orig = .error e) :
    isFrozenErr e = false := by
  simp only [rootPwdBlock, Bool.false_eq_true, reduceIte] at h
  repeat' split at h
  all_goals injection h

/-- Helper: outside the freeze branch, the isolcpus block raises no
freeze error. -/
theorem isolcpusBlock_false_not_frozen (p : UPatch) (orig : OrigHost)
    (e : UpdErr) (h : isolcpusBlock false p orig = .error e) :
    isFrozenErr e = false := by
  simp only [isolcpusBlock, Bool.false_eq_true, reduceIte] at h
  repeat' split at h
  all_goals try (injection h with h)
  all_goals try subst h
  all_goals try rfl
  all_goals try simp_all
  all_goals exact isolcpusTokensCheck_not_frozen _ _ _ (by assumption)

/-- Helper: outside the freeze branch, the hugepages block raises no
freeze error. -/
theorem hugepagesBlock_false_not_frozen (p : UPatch) (orig : OrigHost)
    (e : UpdErr) (h : hugepagesBlock false p orig = .error e) :
    isFrozenErr e = false := by
  simp only [hugepagesBlock, Bool.false_eq_true, reduceIte] at h
  repeat' split at h
  all_goals try (injection h with h)
  all_goals try subst h
  all_goals try rfl
  all_goals try simp_all
  all_goals exact compute_hugepage_memory_not_frozen _ _ _ _ (by assumption)

/-- Helper: outside the freeze branch, the hugepagesize block raises no
freeze error. -/
theorem hugepagesizeBlock_false_not_frozen (p : UPatch) (orig : OrigHost)
    (e : UpdErr) (h : hugepagesizeBlock false p orig = .error e) :
    isFrozenErr e = false := by
  simp only [hugepagesizeBlock, Bool.false_eq_true, reduceIte] at h
  repeat' split at h
  all_goals try (injection h with h)
  all_goals try subst h
  all_goals try rfl
  all_goals try simp_all
  all_goals exact compute_hugepage_memory_not_frozen _ _ _ _ (by assumption)

/-- Helper: the dvs/hugepage cross-check raises no freeze error. -/
theorem check_dvs_huge_not_frozen (p : UPatch) (orig : OrigHost)
    (e : UpdErr) (h : check_dvs_huge p orig = .error e) :
    isFrozenErr e = false := by
  simp only [check_dvs_huge] at h
  repeat' split at h
  all_goals try (injection h with h)
  all_goals try subst h
  all_goals try rfl
  all_goals simp_all

/-- Helper: outside the freeze branch, the os_version block never
raises. -/
theorem osVersionBlock_false_not_frozen (p : UPatch) (orig : OrigHost)
    (e : UpdErr) (h : osVersionBlock false p orig = .error e) :
    isFrozenErr e = false := by
  simp only [osVersionBlock, Bool.false_eq_true, reduceIte] at h
  injection h

end Daisy

namespace Daisy

/-- Helper: the root_lv_size block never changes the patch's root_disk. -/
theorem rootLvBlock_ok_root_disk (fr : Bool) (p : UPatch) (orig : OrigHost)
    (rd : String) (pr : UPatch × Nat)
    (h : rootLvBlock fr p orig rd = .ok pr) :
    pr.1.root_disk = p.root_disk := by
  simp only [rootLvBlock] at h
  repeat' split at h
  all_goals try (injection h with h)
  all_goals try (replace h := h.symm; subst h)
  all_goals simp_all

/-- Helper: the swap_lv_size block never changes the patch's root_disk. -/
theorem swapBlock_ok_root_disk (fr : Bool) (p : UPatch) (orig : OrigHost)
    (roles : List KRole) (rl : Nat) (q : UPatch)
    (h : swapBlock fr p orig roles rl = .ok q) :
    q.root_disk = p.root_disk := by
  simp only [swapBlock] at h
  split at h
  · repeat' split at h
    all_goals try (injection h with h)
    all_goals try (replace h := h.symm; subst h)
    all_goals simp_all
  · split at h
    · injection h
    · rename_i pr heq
      repeat' split at heq
      all_goals try (injection heq with heq)
      all_goals try (replace heq := heq.symm; subst heq)
      all_goals repeat' split at h
      all_goals try (injection h with h)
      all_goals try (replace h := h.symm; subst h)
      all_goals simp_all

/-- Helper: the root_pwd block never changes the patch's root_disk. -/
theorem rootPwdBlock_ok_root_disk (fr : Bool) (p : UPatch)
    (orig : OrigHost) (q : UPatch) (h : rootPwdBlock fr p orig = .ok q) :
    q.root_disk = p.root_disk := by
  simp only [rootPwdBlock] at h
  repeat' split at h
  all_goals try (injection h with h)
  all_goals try (replace h := h.symm; subst h)
  all_goals simp_all

/-- Helper: the isolcpus block never changes the patch's root_disk. -/
theorem isolcpusBlock_ok_root_disk (fr : Bool) (p : UPatch)
    (orig : OrigHost) (q : UPatch) (h : isolcpusBlock fr p orig = .ok q) :
    q.root_disk = p.root_disk := by
  simp only [isolcpusBlock] at h
  repeat' split at h
  all_goals try (injection h with h)
  all_goals try (replace h := h.symm; subst h)
  all_goals simp_all

/-- Helper: the hugepages block returns the patch unchanged on success. -/
theorem hugepagesBlock_ok_eq (fr : Bool) (p : UPatch) (orig : OrigHost)
    (q : UPatch) (h : hugepagesBlock fr p orig = .ok q) : q = p := by
  simp only [hugepagesBlock] at h
  repeat' split at h
  all_goals try (injection h with h)
  all_goals try (replace h := h.symm; subst h)
  all_goals simp_all

/-- Helper: the hugepagesize block returns the patch unchanged on
success. -/
theorem hugepagesizeBlock_ok_eq (fr : Bool) (p : UPatch) (orig : OrigHost)
    (q : UPatch) (h : hugepagesizeBlock fr p orig = .ok q) : q = p := by
  simp only [hugepagesizeBlock] at h
  repeat' split at h
  all_goals try (injection h with h)
  all_goals try (replace h := h.symm; subst h)
  all_goals simp_all

/-- Helper: the os_version block returns the patch unchanged on
success. -/
theorem osVersionBlock_ok_eq (fr : Bool) (p : UPatch) (orig : OrigHost)
    (q : UPatch) (h : osVersionBlock fr p orig = .ok q) : q = p := by
  simp only [osVersionBlock] at h
  repeat' split at h
  all_goals try (injection h with h)
  all_goals try (replace h := h.symm; subst h)
  all_goals simp_all

end Daisy

namespace Daisy

/-- C9: a patch that sets `os_status` to `init` disables every
freeze-once-installed rejection, even on a stored host whose `os_status`
is `active`: whatever error `update_host` raises for such a patch, it is
never one of the `Forbidden to update ... when os_status is active`
raises, so root_disk, root_lv_size, swap_lv_size, root_pwd, isolcpus,
hugepages and hugepagesize are subject only to the ordinary checks. -/
theorem C9_init_no_freeze :
    ∀ (p : UPatch) (orig : OrigHost) (roles : List KRole) (e : UpdErr),
      p.os_status = some "init" →
      update_host p orig roles = .error e → isFrozenErr e = false := by
  intro p orig roles e hst h
  have hfr : freeze_cond p orig = false := by
    simp [freeze_cond, hst]
  simp only [update_host] at h
  rw [hfr] at h
  repeat' split at h
  all_goals try (injection h with h)
  all_goals try (injection h)
  all_goals try subst h
  all_goals try rfl
  all_goals
    first
    | exact rootDiskBlock_false_not_frozen _ _ _ (by assumption)
    | exact rootLvBlock_false_not_frozen _ _ _ _ (by assumption)
    | exact swapBlock_false_not_frozen _ _ _ _ _ (by assumption)
    | exact rootPwdBlock_false_not_frozen _ _ _ (by assumption)
    | exact isolcpusBlock_false_not_frozen _ _ _ (by assumption)
    | exact hugepagesBlock_false_not_frozen _ _ _ (by assumption)
    | exact hugepagesizeBlock_false_not_frozen _ _ _ (by assumption)
    | exact check_dvs_huge_not_frozen _ _ _ (by assumption)
    | exact osVersionBlock_false_not_frozen _ _ _ (by assumption)

/-- C9 witness: on an active host, an os_status=init patch changing every
frozen field is accepted (all sizing checks pass), and the resulting
persisted mapping carries the new values. -/
theorem C9_init_no_freeze_witness :
    (∀ e : UpdErr,
      update_host { emptyPatch with os_status := some "init" } origActive
        [] = .error e → isFrozenErr e = false) ∧
    update_host
      { os_status := some "init"
        root_disk := some "sdb"
        root_lv_size := some "204800"
        swap_lv_size := some "8192"
        root_pwd := some "newpwd"
        isolcpus := some "0-3,6"
        hugepages := some 2
        hugepagesize := some "2M"
        os_version := none
        resource_type := none } origActive [] =
      .ok { os_status := some "init"
            root_disk := some "sdb"
            root_lv_size := some "204800"
            swap_lv_size := some "8192"
            root_pwd := some "newpwd"
            isolcpus := some "0-3,6"
            hugepages := some 2
            hugepagesize := some "2M"
            os_version := none
            resource_type := none } :=
  ⟨fun e h => C9_init_no_freeze { emptyPatch with os_status := some "init" }
    origActive [] e rfl h, by decide⟩

end Daisy

namespace Daisy

/-- C1: for an `update_host` call on a stored host whose `os_status` is
`active`, with a patch that does not set `os_status` to `init` (and passes
the preceding deleted/resource_type guards): a patch carrying a non-empty
`root_disk` different from the stored one makes the call fail with the
Forbidden freeze error before any persistence, leaving the stored
root_disk unchanged; a patch omitting `root_disk` silently carries the
stored value forward into the persisted mapping. -/
theorem C1_rootDisk_freeze :
    ∀ (p : UPatch) (orig : OrigHost) (roles : List KRole),
      orig.deleted = false →
      p.resource_type.elim false
        (fun r => !support_resource_type.contains r) = false →
      orig.os_status = some "active" →
      p.os_status ≠ some "init" →
      ((∀ s : String, p.root_disk = some s → s ≠ "" → s ≠ orig.root_disk →
        update_host p orig roles = .error .frozenRootDisk ∧
        errKind .frozenRootDisk = .forbidden ∧
        storedRootDiskAfter p orig roles = orig.root_disk) ∧
       (p.root_disk = none →
        ∀ q : UPatch, update_host p orig roles = .ok q →
          q.root_disk = some orig.root_disk)) := by
  intro p orig roles hdel hrt hos hinit
  have hfr : freeze_cond p orig = true := by
    simp [freeze_cond, hos, hinit]
  constructor
  · intro s hrd hsne hsneq
    have hblk : rootDiskBlock true p orig = .error .frozenRootDisk := by
      simp [rootDiskBlock, hrd, strTruthy_some_true s hsne, hsneq]
    have hupd : update_host p orig roles = .error .frozenRootDisk := by
      simp only [update_host, hdel, hrt, Bool.false_eq_true, reduceIte,
        hfr, hblk]
    refine ⟨hupd, rfl, ?_⟩
    simp [storedRootDiskAfter, hupd]
  · intro hnone q hq
    have hblk1 : rootDiskBlock true p orig =
        .ok ({ p with root_disk := some orig.root_disk },
             orig.root_disk) := by
      simp [rootDiskBlock, hnone, strTruthy]
    simp only [update_host, hdel, hrt, Bool.false_eq_true, reduceIte,
      hfr, hblk1] at hq
    cases h2 : rootLvBlock true { p with root_disk := some orig.root_disk }
        orig orig.root_disk with
    | error e => simp [h2] at hq
    | ok pr2 =>
      obtain ⟨p2, rl⟩ := pr2
      simp only [h2] at hq
      cases h3 : swapBlock true p2 orig roles rl with
      | error e => simp [h3] at hq
      | ok p3 =>
        simp only [h3] at hq
        cases h4 : rootPwdBlock true p3 orig with
        | error e => simp [h4] at hq
        | ok p4 =>
          simp only [h4] at hq
          cases h5 : isolcpusBlock true p4 orig with
          | error e => simp [h5] at hq
          | ok p5 =>
            simp only [h5] at hq
            split at hq
            · simp at hq
            · cases h6 : hugepagesBlock true p5 orig with
              | error e => simp [h6] at hq
              | ok p6 =>
                simp only [h6] at hq
                cases h7 : hugepagesizeBlock true p6 orig with
                | error e => simp [h7] at hq
                | ok p7 =>
                  simp only [h7] at hq
                  cases h8 : check_dvs_huge p7 orig with
                  | error e => simp [h8] at hq
                  | ok u =>
                    simp only [h8] at hq
                    cases h9 : osVersionBlock true p7 orig with
                    | error e => simp [h9] at hq
                    | ok p8 =>
                      simp only [h9] at hq
                      have hq2 : p8 = q := by injection hq
                      subst hq2
                      have c9 : p8 = p7 :=
                        osVersionBlock_ok_eq _ _ _ _ h9
                      have c7 : p7 = p6 :=
                        hugepagesizeBlock_ok_eq _ _ _ _ h7
                      have c6 : p6 = p5 :=
                        hugepagesBlock_ok_eq _ _ _ _ h6
                      have c5 : p5.root_disk = p4.root_disk :=
                        isolcpusBlock_ok_root_disk _ _ _ _ h5
                      have c4 : p4.root_disk = p3.root_disk :=
                        rootPwdBlock_ok_root_disk _ _ _ _ h4
                      have c3 : p3.root_disk = p2.root_disk :=
                        swapBlock_ok_root_disk _ _ _ _ _ _ h3
                      have c2 : p2.root_disk =
                          some orig.root_disk := by
                        have hc := rootLvBlock_ok_root_disk true
                          { p with root_disk := some orig.root_disk }
                          orig orig.root_disk (p2, rl) h2
                        simpa using hc
                      rw [c9, c7, c6, c5, c4, c3, c2]

/-- C1 witness: on `origActive` (os_status `active`), a patch changing
root_disk to `sdb` is rejected with the Forbidden freeze error and the
stored root disk stays `sda`; an empty patch succeeds and the persisted
mapping carries root_disk `sda` forward. -/
theorem C1_rootDisk_freeze_witness :
    update_host { emptyPatch with root_disk := some "sdb" } origActive [] =
      .error .frozenRootDisk ∧
    errKind .frozenRootDisk = .forbidden ∧
    storedRootDiskAfter { emptyPatch with root_disk := some "sdb" }
      origActive [] = "sda" ∧
    (∀ q : UPatch, update_host emptyPatch origActive [] = .ok q →
      q.root_disk = some "sda") := by
  have h := C1_rootDisk_freeze { emptyPatch with root_disk := some "sdb" }
    origActive [] rfl rfl rfl (by decide)
  have h1 := h.1 "sdb" rfl (by decide) (by decide)
  have h2 := C1_rootDisk_freeze emptyPatch origActive [] rfl rfl rfl
    (by decide)
  exact ⟨h1.1, h1.2.1, h1.2.2, h2.2 rfl⟩

end Daisy
